import Mathlib

/-!
Verification development for the AGV entity of the factory-simulation
repository (source file: src/simulation/entities/agv.py).

The embedding below translates the AGV class into pure Lean functions over an
explicit state record.  Simulated time is tracked in the state (`now`), the
single suspension point of each cooperative task is made explicit by splitting
the task into a pre-suspension phase and a completion phase, and the external
collaborators that are out of scope of the repository source (the simpy
scheduler, the path-time oracle `get_travel_time`, `math.dist`, the device
buffer implementations, the fault system and the KPI/MQTT collaborators) are
modelled at their boundary, following the spec where the source is absent:
  * `get_travel_time` and `math.dist` are oracle fields of `AGVConfig`;
  * devices are modelled by the capability contract of spec section 6 (an
    insertion attempt either returns a success flag or raises an exception,
    encoded as `Except Unit Bool`; blocking insertions cannot fail and are
    the `Except.ok true` case);
  * the fault system pending map, keyed by the (single) AGV id, is an
    `Option String` in the state, and `_inject_fault_now` is modelled from
    the spec (section 4.6: "the resulting status becomes fault") as
    recording the injection and setting the status to `fault`;
  * `can_operate` and `set_status` live in the Vehicle base class, which is
    absent from the source tree; they are modelled from the spec (sections
    4.2 and 7: status-based availability, `fault` being the inoperable
    state; `set_status` suppresses self-transitions, which is
    state-equivalent to direct assignment since telemetry is external).
Printed messages that only interpolate floating-point levels are elided;
feedback values are an inductive type carrying the data the messages carry
(point names, interruption causes).  The KPI calculator and MQTT client are
taken to be absent (`None`), which in the source disables the corresponding
guarded blocks.  Machine floats are modelled as rationals.
-/

/-- Operating states of a device, from config.schemas (absent from src;
the five states are fixed by spec section 4.2). -/
inductive DeviceStatus where
  | idle
  | moving
  | interacting
  | charging
  | fault
deriving DecidableEq, Repr

/-- Monotonic counters of the `stats` dictionary of the AGV class. -/
structure AGVStats where
  total_distance : ℚ
  total_charge_time : ℚ
  forced_charge_count : ℕ
  voluntary_charge_count : ℕ
  low_battery_interruptions : ℕ
  tasks_completed : ℕ
  tasks_interrupted : ℕ
deriving DecidableEq, Repr

/-- A product carried in the AGV payload.  The routing-validity checker
`next_move_checker(now, device_id) -> (can_move, reason)` and the
`update_location` success flag are behaviour fields; `has_route_checker`
models the `hasattr` test for both attributes. -/
structure Product where
  id : String
  has_route_checker : Bool
  next_move_checker : ℚ → String → Bool × String
  update_location_ok : Bool

/-- Per-path-point operation mapping entry (external config consumed by
`unload_to`). -/
structure PointOps where
  device : String
  operations : List String
  buffer : Option String
deriving DecidableEq, Repr

/-- Immutable configuration of one AGV plus the oracles standing for the
external collaborators: the path-time table `get_travel_time` (negative
sentinel = no path) and the straight-line distance `dist` used by the
source as `math.dist`. -/
structure AGVConfig where
  path_points : String → Option (ℤ × ℤ)
  speed_mps : ℚ
  payload_capacity : ℕ
  operation_time : ℚ
  low_battery_threshold : ℚ
  charging_point : String
  charging_speed : ℚ
  battery_consumption_per_meter : ℚ
  battery_consumption_per_action : ℚ
  get_travel_time : String → String → ℚ
  dist : ℤ × ℤ → ℤ × ℤ → ℚ
  agv_operations : String → Option PointOps

/-- The mutable state of one AGV, together with the simulated clock `now`,
the current-task handle `action` (true while a wrapped task process is
registered), and the fault-system collaborator state for this AGV
(`pending_fault` = entry of `pending_agv_faults` keyed by this id,
`injected_faults` = record of `_inject_fault_now` invocations). -/
structure AGVState where
  battery_level : ℚ
  position : ℤ × ℤ
  current_point : String
  target_point : Option String
  estimated_time : ℚ
  status : DeviceStatus
  payload : List Product
  action : Bool
  now : ℚ
  stats : AGVStats
  pending_fault : Option String
  injected_faults : List String

/-- Coordinate of a named path point; the source indexes
`self.path_points[...]` directly and only with known keys. -/
def pathPos (cfg : AGVConfig) (p : String) : ℤ × ℤ :=
  (cfg.path_points p).getD (0, 0)

/-- consume_battery: no-op when the amount is not positive, otherwise
subtract and clamp at zero (the low-battery message is print-only). -/
def consume_battery (st : AGVState) (amount : ℚ) : AGVState :=
  if amount ≤ 0 then st
  else { st with battery_level := max 0 (st.battery_level - amount) }

/-- is_battery_low: level at or below the threshold. -/
def is_battery_low (cfg : AGVConfig) (st : AGVState) : Bool :=
  decide (st.battery_level ≤ cfg.low_battery_threshold)

/-- can_operate, from the Vehicle base class.  Modelled from the spec:
the base class is not in src; spec sections 4.2 and 7 gate availability on
the status, `fault` being the unavailable state. -/
def can_operate (st : AGVState) : Bool :=
  decide (st.status ≠ DeviceStatus.fault)

/-- Python truthiness of the optional target point string (`if target_point:`
is false for None and for the empty string). -/
def optTruthy : Option String → Bool
  | none => false
  | some s => decide (s ≠ "")

/-- can_complete_task, translated line by line: convert travel time to
distance, add per-action consumption; a flat 1% margin when the target is
the charging point; otherwise reserve the return trip to the charging
point, from the path-time oracle when it has a path and from the
straight-line distance from the current position otherwise, plus a flat 3%
margin. -/
def can_complete_task (cfg : AGVConfig) (st : AGVState) (estimated_travel_time : ℚ)
    (estimated_actions : ℕ) (target_point : Option String) : Bool :=
  let estimated_distance := estimated_travel_time * cfg.speed_mps
  let estimated_consumption :=
    estimated_distance * cfg.battery_consumption_per_meter +
      (estimated_actions : ℚ) * cfg.battery_consumption_per_action
  if target_point = some cfg.charging_point then
    decide (st.battery_level ≥ estimated_consumption + 1)
  else
    let return_time :=
      if optTruthy target_point then
        cfg.get_travel_time (target_point.getD "") cfg.charging_point
      else
        cfg.get_travel_time st.current_point cfg.charging_point
    let return_consumption :=
      if return_time < 0 then
        cfg.dist st.position (pathPos cfg cfg.charging_point) * cfg.battery_consumption_per_meter
      else
        return_time * cfg.speed_mps * cfg.battery_consumption_per_meter
    decide (st.battery_level ≥ estimated_consumption + return_consumption + 3)

/-- The return-trip reserve of `can_complete_task` for a non-charger
target, restated standalone so the feasibility theorem can name it: the
return-trip distance back to the charging point (path-time oracle when it
has a path, straight-line fallback otherwise) times the per-meter rate. -/
def return_consumption (cfg : AGVConfig) (st : AGVState) (target_point : Option String) : ℚ :=
  let return_time :=
    if optTruthy target_point then
      cfg.get_travel_time (target_point.getD "") cfg.charging_point
    else
      cfg.get_travel_time st.current_point cfg.charging_point
  if return_time < 0 then
    cfg.dist st.position (pathPos cfg cfg.charging_point) * cfg.battery_consumption_per_meter
  else
    return_time * cfg.speed_mps * cfg.battery_consumption_per_meter

/-- Structured stand-ins for the feedback message strings returned by the
AGV operations, carrying the dynamic data the claims refer to (the
formatted battery percentages of the original strings are elided). -/
inductive Feedback where
  | notAvailable
  | unknownPoint (p : String)
  | noPath (src tgt : String)
  | criticallyLow
  | lowBatteryEmergency (p : String)
  | arrived (p : String)
  | arrivedFault (p : String)
  | interrupted (p : String) (cause : String)
  | alreadyCharging
  | batteryEnough
  | chargedTo (lvl : ℚ)
  | chargedFault (lvl : ℚ)
  | cannotUnload
  | deviceFull
  | wrongDevice
  | unloadNotAllowed
  | batteryLowMsg
  | payloadEmpty
  | routeViolation (reason : String)
  | unloaded (pid : String)
  | unloadFailed
  | unloadException
deriving DecidableEq, Repr

/-- _check_and_trigger_pending_fault: consume the pending entry for this
AGV, if any, and invoke the immediate injection.  The injection call lives
in the fault system (absent from src); modelled from the spec (section
4.6): it records the fault and the resulting status becomes `fault`. -/
def check_and_trigger_pending_fault (st : AGVState) : Bool × AGVState :=
  match st.pending_fault with
  | some f =>
      (true, { st with
        pending_fault := none,
        injected_faults := f :: st.injected_faults,
        status := DeviceStatus.fault })
  | none => (false, st)

/-- Result of the pre-suspension phase of `_move_to_process`: an early
failure return, the battery-infeasibility branch (counter already bumped,
emergency charge still to run), or the task parked in its travel wait. -/
inductive MovePre where
  | fail (st : AGVState) (fb : Feedback)
  | infeasible (st : AGVState)
  | suspended (st : AGVState) (travel_time : ℚ)

/-- Pre-suspension phase of `_move_to_process`, including the wrapper
`move_to` registering the task handle: availability check, unknown-point
check, record the target point, path lookup (negative sentinel = no
path), then the battery gate — the flat-margin rule for the charging
point, the full feasibility check otherwise (bumping the interrupted-task
counter on failure) — and finally the transition to `moving` with the
estimated time recorded, parked in the travel wait. -/
def move_to_pre (cfg : AGVConfig) (st0 : AGVState) (target_point : String) : MovePre :=
  let st := { st0 with action := true }
  if ¬ can_operate st then MovePre.fail st Feedback.notAvailable
  else if (cfg.path_points target_point).isNone then
    MovePre.fail st (Feedback.unknownPoint target_point)
  else
    let st := { st with target_point := some target_point }
    let travel_time := cfg.get_travel_time st.current_point target_point
    if travel_time < 0 then
      MovePre.fail st (Feedback.noPath st.current_point target_point)
    else if target_point = cfg.charging_point then
      let distance_to_charging := travel_time * cfg.speed_mps
      let required_battery := distance_to_charging * cfg.battery_consumption_per_meter + 1
      if st.battery_level < required_battery then
        MovePre.fail st Feedback.criticallyLow
      else
        MovePre.suspended { st with status := DeviceStatus.moving, estimated_time := travel_time } travel_time
    else if ¬ can_complete_task cfg st travel_time 1 (some target_point) then
      MovePre.infeasible { st with stats :=
        { st.stats with tasks_interrupted := st.stats.tasks_interrupted + 1 } }
    else
      MovePre.suspended { st with status := DeviceStatus.moving, estimated_time := travel_time } travel_time

/-- Completion phase of `_move_to_process` after the travel wait: advance
the clock, commit position and point, clear the target and the estimate,
deduct battery for the distance and for one action, update statistics,
then either trigger a pending fault (skipping the idle transition) or go
idle; the finally-clause clears the task handle. -/
def move_to_finish (cfg : AGVConfig) (st1 : AGVState) (target_point : String)
    (travel_time : ℚ) : AGVState × (Bool × Feedback) :=
  let st := { st1 with
    now := st1.now + travel_time,
    position := pathPos cfg target_point,
    current_point := target_point,
    target_point := none,
    estimated_time := 0 }
  let distance := travel_time * cfg.speed_mps
  let st := consume_battery st (distance * cfg.battery_consumption_per_meter)
  let st := consume_battery st cfg.battery_consumption_per_action
  let st := { st with stats := { st.stats with
    total_distance := st.stats.total_distance + distance,
    tasks_completed := st.stats.tasks_completed + 1 } }
  let triggered := check_and_trigger_pending_fault st
  if triggered.1 then
    ({ triggered.2 with action := false }, (true, Feedback.arrivedFault target_point))
  else
    ({ triggered.2 with status := DeviceStatus.idle, action := false },
      (true, Feedback.arrived target_point))

/-- Externally interrupting the movement task while it is parked in its
travel wait, `delta` seconds into the wait: the interrupt propagates out
of `_move_to_process` (running its finally-clause, which clears the task
handle) and is caught by the `move_to` wrapper, which returns a failure
carrying the cause.  No other field of the suspended state changes. -/
def move_to_interrupted (st1 : AGVState) (target_point : String) (delta : ℚ)
    (cause : String) : AGVState × (Bool × Feedback) :=
  ({ st1 with now := st1.now + delta, action := false },
    (false, Feedback.interrupted target_point cause))

/-- `move_to` specialised to the charging point, the form used by
`charge_battery`.  With this target the battery gate is the flat-margin
rule, so the infeasible constructor is unreachable (see
`move_to_pre_charger_not_infeasible`); its branch mirrors the failure
shape of the general driver. -/
def move_to_charger (cfg : AGVConfig) (st : AGVState) : AGVState × (Bool × Feedback) :=
  match move_to_pre cfg st cfg.charging_point with
  | MovePre.fail st1 fb => ({ st1 with action := false }, (false, fb))
  | MovePre.infeasible st1 =>
      ({ st1 with action := false }, (false, Feedback.lowBatteryEmergency cfg.charging_point))
  | MovePre.suspended st1 t => move_to_finish cfg st1 cfg.charging_point t

/-- Result of the pre-suspension phase of `charge_battery`: an immediate
success return, or parked in the charging wait with the computed charge
time. -/
inductive ChargePre where
  | early (st : AGVState) (res : Bool × Feedback)
  | waiting (st : AGVState) (charge_time : ℚ)

/-- Pre-suspension phase of `charge_battery`: immediate success when
already charging or when the level already meets the target; otherwise
run a nested movement task to the charging point when away from it (its
result is not consulted), transition to `charging`, and compute the
charge time from the remaining deficit. -/
def charge_battery_pre (cfg : AGVConfig) (st : AGVState) (target_level : ℚ) : ChargePre :=
  if st.status = DeviceStatus.charging then
    ChargePre.early st (true, Feedback.alreadyCharging)
  else if st.battery_level ≥ target_level then
    ChargePre.early st (true, Feedback.batteryEnough)
  else
    let st := if st.current_point ≠ cfg.charging_point then (move_to_charger cfg st).1 else st
    let st := { st with status := DeviceStatus.charging }
    let charge_needed := target_level - st.battery_level
    let charge_time := charge_needed / cfg.charging_speed
    ChargePre.waiting st charge_time

/-- Completion phase of `charge_battery` after the charging wait: advance
the clock, set the battery level to the target exactly, accumulate the
charge-time statistic, then either trigger a pending fault (skipping the
idle transition) or go idle. -/
def charge_battery_finish (cfg : AGVConfig) (st1 : AGVState) (target_level : ℚ)
    (charge_time : ℚ) : AGVState × (Bool × Feedback) :=
  let st := { st1 with
    now := st1.now + charge_time,
    battery_level := target_level }
  let st := { st with stats := { st.stats with
    total_charge_time := st.stats.total_charge_time + charge_time } }
  let triggered := check_and_trigger_pending_fault st
  if triggered.1 then
    (triggered.2, (true, Feedback.chargedFault target_level))
  else
    ({ triggered.2 with status := DeviceStatus.idle }, (true, Feedback.chargedTo target_level))

/-- charge_battery: an uninterrupted run of the whole routine. -/
def charge_battery (cfg : AGVConfig) (st : AGVState) (target_level : ℚ) :
    AGVState × (Bool × Feedback) :=
  match charge_battery_pre cfg st target_level with
  | ChargePre.early st res => (st, res)
  | ChargePre.waiting st1 t => charge_battery_finish cfg st1 target_level t

/-- emergency_charge: bump the forced-charge and low-battery-interruption
counters, then charge to 50% (the result of the nested charge is not
consulted). -/
def emergency_charge (cfg : AGVConfig) (st : AGVState) : AGVState :=
  let st := { st with stats := { st.stats with
    forced_charge_count := st.stats.forced_charge_count + 1,
    low_battery_interruptions := st.stats.low_battery_interruptions + 1 } }
  (charge_battery cfg st 50).1

/-- voluntary_charge: bump the voluntary-charge counter, register the
task handle, run charge_battery, clear the handle. -/
def voluntary_charge (cfg : AGVConfig) (st : AGVState) (target_level : ℚ) :
    AGVState × (Bool × Feedback) :=
  let st := { st with stats := { st.stats with
    voluntary_charge_count := st.stats.voluntary_charge_count + 1 } }
  let st := { st with action := true }
  let r := charge_battery cfg st target_level
  ({ r.1 with action := false }, r.2)

/-- move_to: an uninterrupted run of the whole movement command, the
battery-infeasibility branch running its emergency charge before the
failure is reported.  Every exit clears the task handle. -/
def move_to (cfg : AGVConfig) (st : AGVState) (target_point : String) :
    AGVState × (Bool × Feedback) :=
  match move_to_pre cfg st target_point with
  | MovePre.fail st1 fb => ({ st1 with action := false }, (false, fb))
  | MovePre.infeasible st1 =>
      let st2 := emergency_charge cfg st1
      ({ st2 with action := false }, (false, Feedback.lowBatteryEmergency target_point))
  | MovePre.suspended st1 t => move_to_finish cfg st1 target_point t

/-- A device as seen by `unload_to`: the capability contract of spec
section 6.  `insert buffer_type product` is the device-kind insertion
dispatch of the source collapsed at its boundary: it returns the success
flag of the chosen insertion call, or `Except.error ()` when the
insertion raises; blocking conveyor pushes cannot fail and are
`Except.ok true`.  The unsupported-device-kind branch of the source is the
`Except.ok false` outcome with no buffer change, which this model does
not distinguish from a device-reported failure. -/
structure UnloadDevice where
  id : String
  is_full : Bool
  insert : Option String → Product → Except Unit Bool

/-- Body of `unload_to` after the pre-try validation: low-battery check,
payload-empty check, pop the head product, routing-validity check
(restoring the product on violation), then the insertion attempt —
restoring the product to the payload when the device reports failure and,
under the capacity guard of the source, when the insertion raises; on
success wait out the operation time and deduct one action of battery.
Every path through the try-block restores the idle status. -/
def unload_core (cfg : AGVConfig) (st : AGVState) (dev : UnloadDevice)
    (buffer_type : Option String) : AGVState × (Bool × Feedback × Option Product) :=
  if is_battery_low cfg st then (st, (false, Feedback.batteryLowMsg, none))
  else
    match st.payload with
    | [] => ({ st with status := DeviceStatus.idle }, (false, Feedback.payloadEmpty, none))
    | p :: rest =>
        let st := { st with status := DeviceStatus.interacting, payload := rest }
        if p.has_route_checker ∧ ¬ (p.next_move_checker st.now dev.id).1 then
          ({ st with payload := rest ++ [p], status := DeviceStatus.idle },
            (false, Feedback.routeViolation (p.next_move_checker st.now dev.id).2, some p))
        else
          match dev.insert buffer_type p with
          | Except.error _ =>
              let st :=
                if rest.length < cfg.payload_capacity then { st with payload := rest ++ [p] }
                else st
              ({ st with status := DeviceStatus.idle },
                (false, Feedback.unloadException, some p))
          | Except.ok false =>
              ({ st with payload := rest ++ [p], status := DeviceStatus.idle },
                (false, Feedback.unloadFailed, some p))
          | Except.ok true =>
              let st := { st with now := st.now + cfg.operation_time }
              let st := consume_battery st cfg.battery_consumption_per_action
              ({ st with status := DeviceStatus.idle },
                (true, Feedback.unloaded p.id, some p))

/-- unload_to: availability and device-full checks, validation against
the per-point operation mapping (device identity, allowed operations,
default buffer adoption), then the transfer body. -/
def unload_to (cfg : AGVConfig) (st : AGVState) (dev : UnloadDevice)
    (buffer_type : Option String) : AGVState × (Bool × Feedback × Option Product) :=
  if ¬ can_operate st then (st, (false, Feedback.cannotUnload, none))
  else if dev.is_full then (st, (false, Feedback.deviceFull, none))
  else
    match cfg.agv_operations st.current_point with
    | some ops =>
        if ops.device ≠ dev.id then (st, (false, Feedback.wrongDevice, none))
        else if ¬ ("unload" ∈ ops.operations) then
          (st, (false, Feedback.unloadNotAllowed, none))
        else
          let bt := if buffer_type = none ∧ ops.buffer.isSome then ops.buffer else buffer_type
          unload_core cfg st dev bt
    | none => unload_core cfg st dev buffer_type

/-! ## Concrete fixtures used by the theorems below -/

/-- All-zero statistics, the initial `stats` dictionary. -/
def statsZero : AGVStats := ⟨0, 0, 0, 0, 0, 0, 0⟩

/-- A small path-time table: P0 to P1 takes 10 s, the return trip P1 to
the charger P10 takes 13 s, P0 to P10 takes 13 s, every other pair has no
path (negative sentinel). -/
def gtt0 : String → String → ℚ := fun a b =>
  if a = "P0" ∧ b = "P1" then 10
  else if a = "P1" ∧ b = "P10" then 13
  else if a = "P0" ∧ b = "P10" then 13
  else -1

/-- Baseline configuration matching the default constructor arguments of
the source (speed 2 m/s, 0.1%/m, 0.5%/action, charger P10). -/
def cfgBase : AGVConfig where
  path_points := fun p =>
    if p = "P0" then some (0, 0)
    else if p = "P1" then some (20, 0)
    else if p = "P2" then some (40, 0)
    else if p = "P10" then some (0, 5)
    else none
  speed_mps := 2
  payload_capacity := 1
  operation_time := 1
  low_battery_threshold := 10
  charging_point := "P10"
  charging_speed := 10/3
  battery_consumption_per_meter := 1/10
  battery_consumption_per_action := 1/2
  get_travel_time := gtt0
  dist := fun _ _ => 0
  agv_operations := fun _ => none

/-- Baseline state: idle at P0 with battery 50%, empty payload. -/
def stBase : AGVState where
  battery_level := 50
  position := (0, 0)
  current_point := "P0"
  target_point := none
  estimated_time := 0
  status := DeviceStatus.idle
  payload := []
  action := false
  now := 0
  stats := statsZero
  pending_fault := none
  injected_faults := []

/-! ## Helper lemmas about the embedded operations -/

/-- For a target other than the charging point, `can_complete_task` is the
comparison of the battery level against estimated consumption plus the
return-trip reserve plus the 3% margin. -/
theorem can_complete_nonCharger_iff (cfg : AGVConfig) (st : AGVState) (t : ℚ) (n : ℕ)
    (p : String) (hp : p ≠ cfg.charging_point) :
    (can_complete_task cfg st t n (some p) = true ↔
      st.battery_level ≥
        t * cfg.speed_mps * cfg.battery_consumption_per_meter +
        (n : ℚ) * cfg.battery_consumption_per_action +
        return_consumption cfg st (some p) + 3) := by
  unfold can_complete_task return_consumption
  dsimp only
  rw [if_neg (by simp [hp]), decide_eq_true_iff]

/-! ## C1 -/

/-- C1: for a target point other than the charging point,
`can_complete_task` with travel time t and action count n returns true iff
`battery_level ≥ (t*speed)*consumption_per_meter +
n*consumption_per_action + return_consumption + 3`, the return
consumption being the return-trip distance to the charging point times the
per-meter rate; and with speed 2, 0.1 %/m, 0.5 %/action, t = 10 s, n = 1
and a 13 s return trip the threshold is exactly 8.1. -/
theorem C1_can_complete_threshold :
    (∀ (cfg : AGVConfig) (st : AGVState) (t : ℚ) (n : ℕ) (p : String),
      p ≠ cfg.charging_point →
      (can_complete_task cfg st t n (some p) = true ↔
        st.battery_level ≥
          t * cfg.speed_mps * cfg.battery_consumption_per_meter +
          (n : ℚ) * cfg.battery_consumption_per_action +
          return_consumption cfg st (some p) + 3)) ∧
    (∀ b : ℚ,
      can_complete_task cfgBase { stBase with battery_level := b } 10 1 (some "P1") =
        decide (b ≥ 81/10)) := by
  constructor
  · exact can_complete_nonCharger_iff
  · intro b
    have hrc : return_consumption cfgBase { stBase with battery_level := b } (some "P1") = 13/5 := by
      unfold return_consumption optTruthy
      simp [cfgBase, stBase, gtt0]
      norm_num
    have hiff := can_complete_nonCharger_iff cfgBase { stBase with battery_level := b }
      10 1 "P1" (by decide)
    rw [hrc] at hiff
    rw [Bool.eq_iff_iff, decide_eq_true_iff, hiff]
    simp only [cfgBase, stBase]
    norm_num

/-- Witness for C1: at battery 9 % the 8.1 % threshold of the concrete
scenario is met, via the theorem of C1. -/
theorem C1_witness :
    can_complete_task cfgBase { stBase with battery_level := 9 } 10 1 (some "P1") = true := by
  have h := C1_can_complete_threshold.1 cfgBase { stBase with battery_level := 9 } 10 1 "P1"
    (by decide)
  rw [h]
  have hrc : return_consumption cfgBase { stBase with battery_level := 9 } (some "P1") = 13/5 := by
    unfold return_consumption optTruthy
    simp [cfgBase, stBase, gtt0]
    norm_num
  rw [hrc]
  simp only [cfgBase, stBase]
  norm_num

/-! ## C2 -/

/-- Configuration for the C2 counterexample: the charger PC sits at
(0,5); the AGV stands at PA = (0,0); the target PB sits at (0,11); the
path-time oracle has no path at all (negative sentinel everywhere), and
the straight-line distance oracle gives the true Euclidean distances 5
and 6 for the two pairs of points that are ever queried (certified inside
the counterexample by their squares). -/
def cfgC2 : AGVConfig := { cfgBase with
  path_points := fun p =>
    if p = "PA" then some (0, 0)
    else if p = "PB" then some (0, 11)
    else if p = "PC" then some (0, 5)
    else none,
  charging_point := "PC",
  get_travel_time := fun _ _ => -1,
  dist := fun a b =>
    if a = ((0 : ℤ), (0 : ℤ)) ∧ b = ((0 : ℤ), (5 : ℤ)) then 5
    else if a = ((0 : ℤ), (11 : ℤ)) ∧ b = ((0 : ℤ), (5 : ℤ)) then 6
    else 0 }

/-- State for the C2 counterexample: battery 3.55 %, standing at PA. -/
def stC2 : AGVState := { stBase with battery_level := 71/20, current_point := "PA" }

/-- C2 counterexample: with no path from target PB to the charger PC, the
code computes the fallback reserve from the current position (distance 5,
reserve 0.5, threshold 3.5) and accepts battery 3.55, while the claimed
formula (straight-line distance from the target PB, distance 6, threshold
3.6) would reject it.  The distance oracle is certified to be the true
straight-line distance at both queried pairs by the squared-distance
equations and nonnegativity. -/
theorem C2_counterexample :
    can_complete_task cfgC2 stC2 0 0 (some "PB") = true ∧
    ¬ (stC2.battery_level ≥
        0 * cfgC2.speed_mps * cfgC2.battery_consumption_per_meter +
        ((0 : ℕ) : ℚ) * cfgC2.battery_consumption_per_action +
        cfgC2.dist (pathPos cfgC2 "PB") (pathPos cfgC2 cfgC2.charging_point) *
          cfgC2.battery_consumption_per_meter + 3) ∧
    cfgC2.get_travel_time "PB" cfgC2.charging_point < 0 ∧
    cfgC2.dist (pathPos cfgC2 "PB") (pathPos cfgC2 cfgC2.charging_point) ^ 2 =
      ((((0 : ℤ) - 0) ^ 2 + ((11 : ℤ) - 5) ^ 2 : ℤ) : ℚ) ∧
    0 ≤ cfgC2.dist (pathPos cfgC2 "PB") (pathPos cfgC2 cfgC2.charging_point) ∧
    cfgC2.dist stC2.position (pathPos cfgC2 cfgC2.charging_point) ^ 2 =
      ((((0 : ℤ) - 0) ^ 2 + ((0 : ℤ) - 5) ^ 2 : ℤ) : ℚ) ∧
    0 ≤ cfgC2.dist stC2.position (pathPos cfgC2 cfgC2.charging_point) ∧
    pathPos cfgC2 "PB" = (0, 11) ∧
    pathPos cfgC2 cfgC2.charging_point = (0, 5) ∧
    stC2.position = (0, 0) := by
  refine ⟨?_, ?_, ?_, ?_, ?_, ?_, ?_, ?_, ?_, ?_⟩
  · simp [can_complete_task, optTruthy, pathPos, cfgC2, cfgBase, stC2, stBase] <;> norm_num
  · simp [pathPos, cfgC2, cfgBase, stC2, stBase] <;> norm_num
  · norm_num [cfgC2, cfgBase]
  · simp [pathPos, cfgC2, cfgBase] <;> norm_num
  · simp [pathPos, cfgC2, cfgBase] <;> norm_num
  · simp [pathPos, cfgC2, cfgBase, stC2, stBase] <;> norm_num
  · simp [pathPos, cfgC2, cfgBase, stC2, stBase] <;> norm_num
  · simp [pathPos, cfgC2, cfgBase]
  · simp [pathPos, cfgC2, cfgBase]
  · simp [stC2, stBase]

/-- C2 (amended): for a given non-charger target whose path back to the
charger is missing from the oracle, the fallback return-trip reserve is
the straight-line distance from the AGV current position (not from the
target point) to the charging point, times the per-meter rate. -/
theorem C2_fallback_from_current_position (cfg : AGVConfig) (st : AGVState) (t : ℚ) (n : ℕ)
    (p : String) (hp : p ≠ cfg.charging_point) (hne : p ≠ "")
    (hnopath : cfg.get_travel_time p cfg.charging_point < 0) :
    can_complete_task cfg st t n (some p) =
      decide (st.battery_level ≥
        t * cfg.speed_mps * cfg.battery_consumption_per_meter +
        (n : ℚ) * cfg.battery_consumption_per_action +
        cfg.dist st.position (pathPos cfg cfg.charging_point) *
          cfg.battery_consumption_per_meter + 3) := by
  unfold can_complete_task
  dsimp only
  rw [if_neg (by simp [hp])]
  have htr : optTruthy (some p) = true := by simp [optTruthy, hne]
  rw [htr, if_pos rfl]
  simp only [Option.getD_some]
  rw [if_pos hnopath]

/-- Witness for the amended C2: the concrete no-path scenario evaluated
through the amended theorem. -/
theorem C2_fallback_witness :
    can_complete_task cfgC2 stC2 0 0 (some "PB") =
      decide (stC2.battery_level ≥
        0 * cfgC2.speed_mps * cfgC2.battery_consumption_per_meter +
        ((0 : ℕ) : ℚ) * cfgC2.battery_consumption_per_action +
        cfgC2.dist stC2.position (pathPos cfgC2 cfgC2.charging_point) *
          cfgC2.battery_consumption_per_meter + 3) :=
  C2_fallback_from_current_position cfgC2 stC2 0 0 "PB" (by decide) (by decide)
    (by norm_num [cfgC2, cfgBase])

/-! ## C3 -/

/-- State for C3: idle at the charging point P10 with battery 50 %. -/
def stC3 : AGVState := { stBase with current_point := "P10", position := (0, 5) }

/-- The completion phase of charging always assigns the target level
exactly, advances the clock by the charge time, keeps the position and
the current point, and reports success. -/
theorem charge_battery_finish_battery (cfg : AGVConfig) (s : AGVState) (target ct : ℚ) :
    (charge_battery_finish cfg s target ct).1.battery_level = target ∧
    (charge_battery_finish cfg s target ct).2.1 = true ∧
    (charge_battery_finish cfg s target ct).1.now = s.now + ct ∧
    (charge_battery_finish cfg s target ct).1.current_point = s.current_point ∧
    (charge_battery_finish cfg s target ct).1.position = s.position := by
  unfold charge_battery_finish check_and_trigger_pending_fault
  dsimp only
  cases hp : s.pending_fault <;> simp [hp]

/-- charge_battery sets the level to the target whenever it actually
charges (not already charging, level strictly below target), regardless
of where the vehicle stands and of the outcome of the nested move: the
completion phase assigns the target level unconditionally. -/
theorem charge_battery_sets_battery (cfg : AGVConfig) (s : AGVState) (target : ℚ)
    (h1 : s.status ≠ DeviceStatus.charging) (h2 : s.battery_level < target) :
    (charge_battery cfg s target).1.battery_level = target ∧
    (charge_battery cfg s target).2.1 = true := by
  unfold charge_battery charge_battery_pre
  rw [if_neg h1, if_neg (not_le.mpr h2)]
  dsimp only
  exact ⟨(charge_battery_finish_battery cfg _ target _).1,
    (charge_battery_finish_battery cfg _ target _).2.1⟩

/-- C3 (code bug): the public command voluntary_charge(150) on an idle
AGV standing at the charging point with battery 50 ends with
battery_level = 150, violating the claimed invariant battery_level ≤ 100
(the class docstring documents battery_level as a 0-100 percentage;
charge_battery assigns the target level without any clamp). -/
theorem C3_overcharge_violates_battery_invariant :
    (voluntary_charge cfgBase stC3 150).1.battery_level = 150 ∧
    ¬ ((voluntary_charge cfgBase stC3 150).1.battery_level ≤ 100) := by
  have h : (voluntary_charge cfgBase stC3 150).1.battery_level = 150 :=
    (charge_battery_sets_battery cfgBase
      { stC3 with
        stats := { stC3.stats with
          voluntary_charge_count := stC3.stats.voluntary_charge_count + 1 },
        action := true }
      150 (by decide) (by norm_num [stC3, stBase])).1
  exact ⟨h, by rw [h]; norm_num⟩

/-! ## Helper lemmas about the movement phases -/

/-- The pre-phase of a movement reaches its travel wait in exactly this
state: task handle registered, target recorded, status moving, estimate
set; the travel time is the oracle value from the current point. -/
theorem move_to_pre_suspended_eq (cfg : AGVConfig) (st : AGVState) (tp : String)
    (st1 : AGVState) (t : ℚ)
    (h : move_to_pre cfg st tp = MovePre.suspended st1 t) :
    st1 = { st with
      action := true, target_point := some tp,
      status := DeviceStatus.moving, estimated_time := t } ∧
    t = cfg.get_travel_time st.current_point tp := by
  unfold move_to_pre at h
  dsimp only at h
  split at h
  · exact MovePre.noConfusion h
  split at h
  · exact MovePre.noConfusion h
  split at h
  · exact MovePre.noConfusion h
  split at h
  · split at h
    · exact MovePre.noConfusion h
    · injection h with h1 h2
      subst h2
      exact ⟨h1.symm, rfl⟩
  · split at h
    · exact MovePre.noConfusion h
    · injection h with h1 h2
      subst h2
      exact ⟨h1.symm, rfl⟩

/-- Evaluation of the pre-phase on an unknown target point: fail without
recording the target. -/
theorem move_to_pre_unknown (cfg : AGVConfig) (st : AGVState) (tp : String)
    (hop : can_operate st = true) (hnone : cfg.path_points tp = none) :
    move_to_pre cfg st tp =
      MovePre.fail { st with action := true } (Feedback.unknownPoint tp) := by
  unfold move_to_pre
  dsimp only
  rw [if_neg (by simp [show can_operate { st with action := true } = true from hop])]
  rw [if_pos (by simp [hnone])]

/-- Evaluation of the pre-phase when the oracle has no path: fail with
the target already recorded. -/
theorem move_to_pre_nopath (cfg : AGVConfig) (st : AGVState) (tp : String)
    (hop : can_operate st = true) (hsome : (cfg.path_points tp).isNone = false)
    (hneg : cfg.get_travel_time st.current_point tp < 0) :
    move_to_pre cfg st tp =
      MovePre.fail { st with action := true, target_point := some tp }
        (Feedback.noPath st.current_point tp) := by
  unfold move_to_pre
  dsimp only
  rw [if_neg (by simp [show can_operate { st with action := true } = true from hop])]
  rw [if_neg (by simp [hsome])]
  rw [if_pos hneg]

/-- The completion phase always clears the target point and the task
handle, commits the new current point, and reports success. -/
theorem move_to_finish_fields (cfg : AGVConfig) (st1 : AGVState) (tp : String) (t : ℚ) :
    (move_to_finish cfg st1 tp t).1.target_point = none ∧
    (move_to_finish cfg st1 tp t).1.current_point = tp ∧
    (move_to_finish cfg st1 tp t).1.action = false ∧
    (move_to_finish cfg st1 tp t).2.1 = true := by
  unfold move_to_finish consume_battery check_and_trigger_pending_fault
  dsimp only
  repeat' split
  all_goals simp

/-- Every exit path of an uninterrupted movement clears the task handle. -/
theorem move_to_action_false (cfg : AGVConfig) (st : AGVState) (tp : String) :
    (move_to cfg st tp).1.action = false := by
  unfold move_to
  cases h : move_to_pre cfg st tp with
  | fail st1 fb => rfl
  | infeasible st1 => rfl
  | suspended st1 t => exact (move_to_finish_fields cfg st1 tp t).2.2.1

/-! ## C4 -/

/-- C4 counterexample: a move to the known point P2 that has no path
entry returns a failure, yet leaves target_point = some "P2" — the claim
says target_point is null after an unreachable-path failure. -/
theorem C4_counterexample :
    (move_to cfgBase stBase "P2").2.1 = false ∧
    (move_to cfgBase stBase "P2").1.target_point = some "P2" ∧
    stBase.target_point = none := by
  have hpre := move_to_pre_nopath cfgBase stBase "P2" (by decide) (by decide)
    (by simp [cfgBase, stBase, gtt0])
  unfold move_to
  rw [hpre]
  exact ⟨rfl, rfl, rfl⟩

/-- C4 (amended): target_point is non-null exactly at the travel wait for
runs that reach it, and is null again after a successful completion and
after an unknown-target failure; but an unreachable-path failure leaves
target_point set to the requested target, because the pre-phase records
the target before the path lookup and no failure path resets it. -/
theorem C4_target_point_discipline (cfg : AGVConfig) (st : AGVState) (tp : String)
    (hop : can_operate st = true) :
    (cfg.path_points tp = none →
      (move_to cfg st tp).2.1 = false ∧
      (move_to cfg st tp).1.target_point = st.target_point) ∧
    (∀ st1 t, move_to_pre cfg st tp = MovePre.suspended st1 t →
      st1.target_point = some tp) ∧
    (∀ st1 t, move_to_pre cfg st tp = MovePre.suspended st1 t →
      (move_to_finish cfg st1 tp t).1.target_point = none) ∧
    ((cfg.path_points tp).isNone = false →
      cfg.get_travel_time st.current_point tp < 0 →
      (move_to cfg st tp).2.1 = false ∧
      (move_to cfg st tp).1.target_point = some tp) := by
  refine ⟨?_, ?_, ?_, ?_⟩
  · intro hnone
    unfold move_to
    rw [move_to_pre_unknown cfg st tp hop hnone]
    exact ⟨rfl, rfl⟩
  · intro st1 t h
    rw [(move_to_pre_suspended_eq cfg st tp st1 t h).1]
  · intro st1 t h
    exact (move_to_finish_fields cfg st1 tp t).1
  · intro hsome hneg
    unfold move_to
    rw [move_to_pre_nopath cfg st tp hop hsome hneg]
    exact ⟨rfl, rfl⟩

/-- Witness for the amended C4: the concrete no-path scenario. -/
theorem C4_witness :
    (move_to cfgBase stBase "P2").2.1 = false ∧
    (move_to cfgBase stBase "P2").1.target_point = some "P2" :=
  (C4_target_point_discipline cfgBase stBase "P2" (by decide)).2.2.2
    (by decide) (by simp [cfgBase, stBase, gtt0])

/-! ## Helper lemmas for the emergency-charge redirection -/

/-- Every early-failure exit of the pre-phase keeps all fields of the
state except the task handle and (possibly) the recorded target. -/
theorem move_to_pre_fail_fields (cfg : AGVConfig) (st : AGVState) (tp : String)
    (st1 : AGVState) (fb : Feedback)
    (h : move_to_pre cfg st tp = MovePre.fail st1 fb) :
    st1.stats = st.stats ∧ st1.battery_level = st.battery_level ∧
    st1.status = st.status ∧ st1.current_point = st.current_point ∧
    st1.position = st.position ∧ st1.now = st.now ∧
    st1.pending_fault = st.pending_fault ∧
    st1.injected_faults = st.injected_faults ∧
    st1.payload = st.payload := by
  unfold move_to_pre at h
  dsimp only at h
  split at h
  · injection h with h1 h2
    subst h1
    simp
  split at h
  · injection h with h1 h2
    subst h1
    simp
  split at h
  · injection h with h1 h2
    subst h1
    simp
  split at h
  · split at h
    · injection h with h1 h2
      subst h1
      simp
    · exact MovePre.noConfusion h
  · split at h
    · exact MovePre.noConfusion h
    · exact MovePre.noConfusion h

/-- With the charging point as target, the pre-phase never takes the
battery-infeasibility branch: that branch is guarded by the target being
different from the charging point. -/
theorem move_to_pre_charger_not_infeasible (cfg : AGVConfig) (st : AGVState)
    (st1 : AGVState) (h : move_to_pre cfg st cfg.charging_point = MovePre.infeasible st1) :
    False := by
  unfold move_to_pre at h
  dsimp only at h
  split at h
  · exact MovePre.noConfusion h
  split at h
  · exact MovePre.noConfusion h
  split at h
  · exact MovePre.noConfusion h
  split at h
  · split at h
    · exact MovePre.noConfusion h
    · exact MovePre.noConfusion h
  · rename_i hc
    exact absurd rfl hc

/-- The completion phase of a movement never changes the charge-related
counters. -/
theorem move_to_finish_counters (cfg : AGVConfig) (st1 : AGVState) (tp : String) (t : ℚ) :
    (move_to_finish cfg st1 tp t).1.stats.forced_charge_count =
      st1.stats.forced_charge_count ∧
    (move_to_finish cfg st1 tp t).1.stats.low_battery_interruptions =
      st1.stats.low_battery_interruptions ∧
    (move_to_finish cfg st1 tp t).1.stats.tasks_interrupted =
      st1.stats.tasks_interrupted := by
  unfold move_to_finish consume_battery check_and_trigger_pending_fault
  dsimp only
  repeat' split
  all_goals simp

/-- A movement to the charging point never changes the forced-charge,
low-battery-interruption or interrupted-task counters. -/
theorem move_to_charger_counters (cfg : AGVConfig) (s : AGVState) :
    (move_to_charger cfg s).1.stats.forced_charge_count = s.stats.forced_charge_count ∧
    (move_to_charger cfg s).1.stats.low_battery_interruptions =
      s.stats.low_battery_interruptions ∧
    (move_to_charger cfg s).1.stats.tasks_interrupted = s.stats.tasks_interrupted := by
  unfold move_to_charger
  cases h : move_to_pre cfg s cfg.charging_point with
  | fail st1 fb =>
      have hf := move_to_pre_fail_fields cfg s cfg.charging_point st1 fb h
      simp [hf.1]
  | infeasible st1 => exact (move_to_pre_charger_not_infeasible cfg s st1 h).elim
  | suspended st1 t =>
      have hs := (move_to_pre_suspended_eq cfg s cfg.charging_point st1 t h).1
      subst hs
      have hc := move_to_finish_counters cfg { s with
        action := true, target_point := some cfg.charging_point,
        status := DeviceStatus.moving, estimated_time := t } cfg.charging_point t
      simp [hc.1, hc.2.1, hc.2.2]

/-- The completion phase of charging never changes the forced-charge,
low-battery-interruption or interrupted-task counters. -/
theorem charge_battery_finish_counters (cfg : AGVConfig) (s : AGVState) (target ct : ℚ) :
    (charge_battery_finish cfg s target ct).1.stats.forced_charge_count =
      s.stats.forced_charge_count ∧
    (charge_battery_finish cfg s target ct).1.stats.low_battery_interruptions =
      s.stats.low_battery_interruptions ∧
    (charge_battery_finish cfg s target ct).1.stats.tasks_interrupted =
      s.stats.tasks_interrupted := by
  unfold charge_battery_finish check_and_trigger_pending_fault
  dsimp only
  cases hp : s.pending_fault <;> simp [hp]

/-- charge_battery never changes the forced-charge,
low-battery-interruption or interrupted-task counters (those belong to
its callers). -/
theorem charge_battery_counters (cfg : AGVConfig) (s : AGVState) (target : ℚ) :
    (charge_battery cfg s target).1.stats.forced_charge_count =
      s.stats.forced_charge_count ∧
    (charge_battery cfg s target).1.stats.low_battery_interruptions =
      s.stats.low_battery_interruptions ∧
    (charge_battery cfg s target).1.stats.tasks_interrupted =
      s.stats.tasks_interrupted := by
  unfold charge_battery charge_battery_pre
  by_cases hc1 : s.status = DeviceStatus.charging
  · rw [if_pos hc1]
    exact ⟨rfl, rfl, rfl⟩
  · rw [if_neg hc1]
    by_cases hc2 : s.battery_level ≥ target
    · rw [if_pos hc2]
      exact ⟨rfl, rfl, rfl⟩
    · rw [if_neg hc2]
      dsimp only
      by_cases hc3 : s.current_point ≠ cfg.charging_point
      · rw [if_pos hc3]
        refine ⟨?_, ?_, ?_⟩
        · rw [(charge_battery_finish_counters cfg _ target _).1]
          exact (move_to_charger_counters cfg s).1
        · rw [(charge_battery_finish_counters cfg _ target _).2.1]
          exact (move_to_charger_counters cfg s).2.1
        · rw [(charge_battery_finish_counters cfg _ target _).2.2]
          exact (move_to_charger_counters cfg s).2.2
      · rw [if_neg hc3]
        refine ⟨?_, ?_, ?_⟩
        · rw [(charge_battery_finish_counters cfg _ target _).1]
        · rw [(charge_battery_finish_counters cfg _ target _).2.1]
        · rw [(charge_battery_finish_counters cfg _ target _).2.2]

/-- charge_battery with the target already met returns with no state
change at all. -/
theorem charge_battery_noop (cfg : AGVConfig) (s : AGVState) (target : ℚ)
    (h : target ≤ s.battery_level) :
    (charge_battery cfg s target).1 = s := by
  unfold charge_battery charge_battery_pre
  by_cases hc1 : s.status = DeviceStatus.charging
  · rw [if_pos hc1]
  · rw [if_neg hc1, if_pos (show s.battery_level ≥ target from h)]

/-- Evaluation of the pre-phase into the battery-infeasibility branch:
target recorded, interrupted-task counter bumped, nothing else changed. -/
theorem move_to_pre_infeasible_eq (cfg : AGVConfig) (st : AGVState) (tp : String)
    (hop : can_operate st = true) (hsome : (cfg.path_points tp).isNone = false)
    (htt : ¬ cfg.get_travel_time st.current_point tp < 0)
    (hne : tp ≠ cfg.charging_point)
    (hcc : can_complete_task cfg st (cfg.get_travel_time st.current_point tp) 1 (some tp)
      = false) :
    move_to_pre cfg st tp =
      MovePre.infeasible { st with
        action := true, target_point := some tp,
        stats := { st.stats with
          tasks_interrupted := st.stats.tasks_interrupted + 1 } } := by
  unfold move_to_pre
  dsimp only
  rw [if_neg (by simp [show can_operate { st with action := true } = true from hop])]
  rw [if_neg (by simp [hsome])]
  rw [if_neg htt]
  rw [if_neg hne]
  rw [if_pos (by simp [show can_complete_task cfg
    { st with action := true, target_point := some tp }
    (cfg.get_travel_time st.current_point tp) 1 (some tp) = false from hcc])]

/-- emergency_charge bumps the forced-charge and low-battery counters,
leaves the interrupted-task counter alone, and charges to 50 % exactly
when the level was below (otherwise leaves the level unchanged). -/
theorem emergency_charge_props (cfg : AGVConfig) (s : AGVState) :
    (emergency_charge cfg s).stats.forced_charge_count =
      s.stats.forced_charge_count + 1 ∧
    (emergency_charge cfg s).stats.low_battery_interruptions =
      s.stats.low_battery_interruptions + 1 ∧
    (emergency_charge cfg s).stats.tasks_interrupted = s.stats.tasks_interrupted ∧
    (s.status ≠ DeviceStatus.charging → s.battery_level < 50 →
      (emergency_charge cfg s).battery_level = 50) ∧
    (50 ≤ s.battery_level → (emergency_charge cfg s).battery_level = s.battery_level) := by
  unfold emergency_charge
  dsimp only
  refine ⟨?_, ?_, ?_, ?_, ?_⟩
  · rw [(charge_battery_counters cfg _ 50).1]
  · rw [(charge_battery_counters cfg _ 50).2.1]
  · rw [(charge_battery_counters cfg _ 50).2.2]
  · intro h1 h2
    exact (charge_battery_sets_battery cfg { s with stats := { s.stats with
      forced_charge_count := s.stats.forced_charge_count + 1,
      low_battery_interruptions := s.stats.low_battery_interruptions + 1 } } 50 h1 h2).1
  · intro h
    rw [charge_battery_noop cfg { s with stats := { s.stats with
      forced_charge_count := s.stats.forced_charge_count + 1,
      low_battery_interruptions := s.stats.low_battery_interruptions + 1 } } 50 h]

/-! ## C5 -/

/-- C5: a move to a reachable non-charger point that fails the
feasibility check returns a failure, bumps the interrupted-task counter
by one, and runs an emergency charge (forced-charge and
low-battery-interruption counters bump by one; the battery charges to
50 % when below, and is untouched when already at or above 50 %); the
failed move itself leaves position and current point unchanged (the
pre-phase hands the emergency charge a state with the original position
and point). -/
theorem C5_infeasible_move_redirects (cfg : AGVConfig) (st : AGVState) (tp : String)
    (hst : st.status = DeviceStatus.idle)
    (hknown : (cfg.path_points tp).isNone = false)
    (hne : tp ≠ cfg.charging_point)
    (htt : ¬ cfg.get_travel_time st.current_point tp < 0)
    (hcc : can_complete_task cfg st (cfg.get_travel_time st.current_point tp) 1 (some tp)
      = false) :
    (move_to cfg st tp).2.1 = false ∧
    (move_to cfg st tp).1.stats.tasks_interrupted = st.stats.tasks_interrupted + 1 ∧
    (move_to cfg st tp).1.stats.forced_charge_count = st.stats.forced_charge_count + 1 ∧
    (move_to cfg st tp).1.stats.low_battery_interruptions =
      st.stats.low_battery_interruptions + 1 ∧
    (st.battery_level < 50 → (move_to cfg st tp).1.battery_level = 50) ∧
    (50 ≤ st.battery_level → (move_to cfg st tp).1.battery_level = st.battery_level) ∧
    (∃ st1, move_to_pre cfg st tp = MovePre.infeasible st1 ∧
      st1.position = st.position ∧ st1.current_point = st.current_point ∧
      st1.battery_level = st.battery_level) := by
  have hop : can_operate st = true := by simp [can_operate, hst]
  have hpre := move_to_pre_infeasible_eq cfg st tp hop hknown htt hne hcc
  have hprops := emergency_charge_props cfg { st with
    action := true, target_point := some tp,
    stats := { st.stats with tasks_interrupted := st.stats.tasks_interrupted + 1 } }
  unfold move_to
  rw [hpre]
  dsimp only
  refine ⟨rfl, ?_, ?_, ?_, ?_, ?_, ?_⟩
  · rw [hprops.2.2.1]
  · rw [hprops.1]
  · rw [hprops.2.1]
  · intro hb
    exact hprops.2.2.2.1 (by simp [hst]) hb
  · intro hb
    exact hprops.2.2.2.2 hb
  · exact ⟨_, rfl, rfl, rfl, rfl⟩

/-- State for the C5 witness: idle at P0 with battery 5 %, below the
8.1 % threshold for the move to P1. -/
def stC5 : AGVState := { stBase with battery_level := 5 }

/-- Witness for C5: the concrete infeasible move, via the theorem. -/
theorem C5_witness :
    (move_to cfgBase stC5 "P1").2.1 = false ∧
    (move_to cfgBase stC5 "P1").1.stats.tasks_interrupted =
      stC5.stats.tasks_interrupted + 1 ∧
    (move_to cfgBase stC5 "P1").1.stats.forced_charge_count =
      stC5.stats.forced_charge_count + 1 ∧
    (move_to cfgBase stC5 "P1").1.stats.low_battery_interruptions =
      stC5.stats.low_battery_interruptions + 1 ∧
    (move_to cfgBase stC5 "P1").1.battery_level = 50 := by
  have h := C5_infeasible_move_redirects cfgBase stC5 "P1" (by decide) (by decide) (by decide)
    (by simp [cfgBase, stC5, stBase, gtt0] <;> norm_num)
    (by simp [can_complete_task, optTruthy, pathPos, cfgBase, stC5, stBase, gtt0] <;> norm_num)
  exact ⟨h.1, h.2.1, h.2.2.1, h.2.2.2.1,
    h.2.2.2.2.1 (by simp [stC5, stBase] <;> norm_num)⟩

/-! ## C6 -/

/-- Evaluation of the pre-phase into the travel wait when every gate
passes for a non-charger target. -/
theorem move_to_pre_feasible_eq (cfg : AGVConfig) (st : AGVState) (tp : String)
    (hop : can_operate st = true) (hsome : (cfg.path_points tp).isNone = false)
    (htt : ¬ cfg.get_travel_time st.current_point tp < 0)
    (hne : tp ≠ cfg.charging_point)
    (hcc : can_complete_task cfg st (cfg.get_travel_time st.current_point tp) 1 (some tp)
      = true) :
    move_to_pre cfg st tp =
      MovePre.suspended { st with
        action := true, target_point := some tp,
        status := DeviceStatus.moving,
        estimated_time := cfg.get_travel_time st.current_point tp }
        (cfg.get_travel_time st.current_point tp) := by
  unfold move_to_pre
  dsimp only
  rw [if_neg (by simp [show can_operate { st with action := true } = true from hop])]
  rw [if_neg (by simp [hsome])]
  rw [if_neg htt]
  rw [if_neg hne]
  rw [if_neg (by simp [show can_complete_task cfg
    { st with action := true, target_point := some tp }
    (cfg.get_travel_time st.current_point tp) 1 (some tp) = true from hcc])]

/-- C6: an external interrupt delivered while the movement task sits in
its travel wait makes the command return a failure carrying the
interruption cause; position, current point, battery and payload keep
exactly the values from before the command; the task handle is cleared
on this exit path, and on every exit path of an uninterrupted run. -/
theorem C6_interrupt_leaves_state (cfg : AGVConfig) (st : AGVState) (tp : String)
    (st1 : AGVState) (t : ℚ) (delta : ℚ) (cause : String)
    (hsus : move_to_pre cfg st tp = MovePre.suspended st1 t) :
    (move_to_interrupted st1 tp delta cause).2 =
      (false, Feedback.interrupted tp cause) ∧
    (move_to_interrupted st1 tp delta cause).1.position = st.position ∧
    (move_to_interrupted st1 tp delta cause).1.current_point = st.current_point ∧
    (move_to_interrupted st1 tp delta cause).1.battery_level = st.battery_level ∧
    (move_to_interrupted st1 tp delta cause).1.payload = st.payload ∧
    (move_to_interrupted st1 tp delta cause).1.action = false ∧
    (∀ q, (move_to cfg st q).1.action = false) := by
  obtain ⟨h1, -⟩ := move_to_pre_suspended_eq cfg st tp st1 t hsus
  subst h1
  exact ⟨rfl, rfl, rfl, rfl, rfl, rfl, fun q => move_to_action_false cfg st q⟩

/-- The suspended state of the C6 witness scenario: stBase parked in its
10 s travel wait toward P1. -/
def stC6sus : AGVState := { stBase with
  action := true, target_point := some "P1",
  status := DeviceStatus.moving, estimated_time := 10 }

/-- Witness for C6: interrupting 4 s into the 10 s leg from P0 to P1. -/
theorem C6_witness :
    (move_to_interrupted stC6sus "P1" 4 "new command").2 =
      (false, Feedback.interrupted "P1" "new command") ∧
    (move_to_interrupted stC6sus "P1" 4 "new command").1.position = stBase.position ∧
    (move_to_interrupted stC6sus "P1" 4 "new command").1.current_point =
      stBase.current_point ∧
    (move_to_interrupted stC6sus "P1" 4 "new command").1.battery_level =
      stBase.battery_level := by
  have hsus : move_to_pre cfgBase stBase "P1" = MovePre.suspended stC6sus 10 :=
    move_to_pre_feasible_eq cfgBase stBase "P1" (by decide) (by decide)
      (by simp [cfgBase, stBase, gtt0] <;> norm_num) (by decide)
      (by simp [can_complete_task, optTruthy, pathPos, cfgBase, stBase, gtt0] <;> norm_num)
  have h := C6_interrupt_leaves_state cfgBase stBase "P1" stC6sus 10 4 "new command" hsus
  exact ⟨h.1, h.2.1, h.2.2.1, h.2.2.2.1⟩

/-! ## C7 -/

/-- C7: charge_battery returns success immediately with no state change
when already charging or when the level already meets the target;
otherwise, at the charging point, it suspends for exactly
(target - level)/charging_speed seconds and resumes with the level at
exactly the target. -/
theorem C7_charge_battery_exact (cfg : AGVConfig) (st : AGVState) (target : ℚ) :
    (st.status = DeviceStatus.charging →
      charge_battery cfg st target = (st, (true, Feedback.alreadyCharging))) ∧
    (st.status ≠ DeviceStatus.charging → target ≤ st.battery_level →
      charge_battery cfg st target = (st, (true, Feedback.batteryEnough))) ∧
    (st.status ≠ DeviceStatus.charging → st.battery_level < target →
      st.current_point = cfg.charging_point →
      (charge_battery cfg st target).2.1 = true ∧
      (charge_battery cfg st target).1.battery_level = target ∧
      (charge_battery cfg st target).1.now =
        st.now + (target - st.battery_level) / cfg.charging_speed) := by
  refine ⟨?_, ?_, ?_⟩
  · intro h1
    unfold charge_battery charge_battery_pre
    rw [if_pos h1]
  · intro h1 h2
    unfold charge_battery charge_battery_pre
    rw [if_neg h1, if_pos (show st.battery_level ≥ target from h2)]
  · intro h1 h2 h3
    unfold charge_battery charge_battery_pre
    rw [if_neg h1, if_neg (not_le.mpr h2)]
    dsimp only
    rw [if_neg (by simp [h3])]
    have hf := charge_battery_finish_battery cfg { st with status := DeviceStatus.charging }
      target ((target - st.battery_level) / cfg.charging_speed)
    exact ⟨hf.2.1, hf.1, hf.2.2.1⟩

/-- State for the C7 witness: idle at the charger with battery 40 %. -/
def stC7 : AGVState :=
  { stBase with battery_level := 40, current_point := "P10", position := (0, 5) }

/-- Witness for C7: charging from 40 % to 100 % at the charger takes
exactly (100-40)/charging_speed seconds and ends at exactly 100. -/
theorem C7_witness :
    (charge_battery cfgBase stC7 100).2.1 = true ∧
    (charge_battery cfgBase stC7 100).1.battery_level = 100 ∧
    (charge_battery cfgBase stC7 100).1.now =
      stC7.now + (100 - stC7.battery_level) / cfgBase.charging_speed :=
  (C7_charge_battery_exact cfgBase stC7 100).2.2 (by decide)
    (by simp [stC7, stBase] <;> norm_num) (by decide)

/-! ## C8 -/

/-- Core of the unload transfer with a nonempty payload: every failing
path hands back a payload that is a permutation of the original one. -/
theorem unload_core_failure_perm (cfg : AGVConfig) (st : AGVState) (dev : UnloadDevice)
    (bt : Option String) (p : Product) (rest : List Product)
    (hpay : st.payload = p :: rest) (hlen : rest.length < cfg.payload_capacity) :
    (unload_core cfg st dev bt).2.1 = false →
    ((unload_core cfg st dev bt).1.payload).Perm (p :: rest) := by
  unfold unload_core
  rw [hpay]
  dsimp only
  split
  · intro hfail
    dsimp only
    exact hpay ▸ List.Perm.refl (p :: rest)
  · split
    · intro hfail
      dsimp only
      exact List.perm_append_singleton p rest
    · split
      · intro hfail
        dsimp only
        exact List.perm_append_singleton p rest
      · intro hfail
        dsimp only
        exact List.perm_append_singleton p rest
      · intro hfail
        exact Bool.noConfusion hfail

/-- C8: whenever unload_to reports failure — including the
routing-violation, device-reported-failure and exception-during-insertion
paths, all of which first remove the head product from the payload — the
payload contents after the call equal the payload contents before it (as
a multiset), so the product always has exactly one owner at return. -/
theorem C8_unload_failure_restores_payload (cfg : AGVConfig) (st : AGVState)
    (dev : UnloadDevice) (bt : Option String)
    (hcap : st.payload.length ≤ cfg.payload_capacity) :
    (unload_to cfg st dev bt).2.1 = false →
    ((unload_to cfg st dev bt).1.payload).Perm st.payload := by
  have hcore : ∀ b, (unload_core cfg st dev b).2.1 = false →
      ((unload_core cfg st dev b).1.payload).Perm st.payload := by
    intro b
    cases hpay : st.payload with
    | nil =>
        unfold unload_core
        rw [hpay]
        dsimp only
        split
        · intro hfail
          dsimp only
          rw [hpay]
        · intro hfail
          exact List.Perm.refl []
    | cons p rest =>
        have hlen : rest.length < cfg.payload_capacity := by
          rw [hpay] at hcap
          exact Nat.lt_of_succ_le (by simpa using hcap)
        intro hfail
        exact unload_core_failure_perm cfg st dev b p rest hpay hlen hfail
  unfold unload_to
  split
  · intro hfail
    exact List.Perm.refl _
  · split
    · intro hfail
      exact List.Perm.refl _
    · split
      · split
        · intro hfail
          exact List.Perm.refl _
        · split
          · intro hfail
            exact List.Perm.refl _
          · exact hcore _
      · exact hcore _

/-- A product with no routing checker, for the C8 witness. -/
def prodA : Product := ⟨"prod_A", false, fun _ _ => (true, ""), true⟩

/-- A device whose insertion reports failure, for the C8 witness. -/
def devC8 : UnloadDevice := ⟨"station_1", false, fun _ _ => Except.ok false⟩

/-- State for the C8 witness: one product loaded. -/
def stC8 : AGVState := { stBase with payload := [prodA] }

/-- Witness for C8: a device-reported insertion failure with a concrete
one-product payload, via the theorem. -/
theorem C8_witness :
    ((unload_to cfgBase stC8 devC8 none).1.payload).Perm stC8.payload :=
  C8_unload_failure_restores_payload cfgBase stC8 devC8 none (by decide) (by rfl)

/-! ## C9 -/

/-- The movement completion phase with a pending fault consumes the
pending entry, records exactly one injection, still reports success, and
the status becomes fault instead of idle. -/
theorem move_to_finish_pending (cfg : AGVConfig) (st1 : AGVState) (tp : String) (t : ℚ)
    (f : String) (hp : st1.pending_fault = some f) :
    (move_to_finish cfg st1 tp t).1.pending_fault = none ∧
    (move_to_finish cfg st1 tp t).1.injected_faults = f :: st1.injected_faults ∧
    (move_to_finish cfg st1 tp t).2.1 = true ∧
    (move_to_finish cfg st1 tp t).1.status = DeviceStatus.fault := by
  unfold move_to_finish consume_battery check_and_trigger_pending_fault
  dsimp only
  repeat' split
  all_goals simp_all

/-- The movement completion phase with no pending fault injects nothing
and goes idle. -/
theorem move_to_finish_no_pending (cfg : AGVConfig) (st1 : AGVState) (tp : String) (t : ℚ)
    (hp : st1.pending_fault = none) :
    (move_to_finish cfg st1 tp t).1.pending_fault = none ∧
    (move_to_finish cfg st1 tp t).1.injected_faults = st1.injected_faults ∧
    (move_to_finish cfg st1 tp t).2.1 = true ∧
    (move_to_finish cfg st1 tp t).1.status = DeviceStatus.idle := by
  unfold move_to_finish consume_battery check_and_trigger_pending_fault
  dsimp only
  repeat' split
  all_goals simp_all

/-- The charging completion phase with a pending fault: same firing rule. -/
theorem charge_battery_finish_pending (cfg : AGVConfig) (s : AGVState) (target ct : ℚ)
    (f : String) (hp : s.pending_fault = some f) :
    (charge_battery_finish cfg s target ct).1.pending_fault = none ∧
    (charge_battery_finish cfg s target ct).1.injected_faults = f :: s.injected_faults ∧
    (charge_battery_finish cfg s target ct).2.1 = true ∧
    (charge_battery_finish cfg s target ct).1.status = DeviceStatus.fault := by
  unfold charge_battery_finish check_and_trigger_pending_fault
  dsimp only
  simp [hp]

/-- C9: a pending fault does not fire while the movement task is parked
in its travel wait (the suspended state still carries the pending entry,
with no injection recorded); at the successful completion of the
movement — and likewise of an actual charge at the charging point — it
fires exactly once: the pending entry is removed, exactly one injection
is recorded, the task still returns success, and the status becomes
fault rather than idle; a completion without a pending entry injects
nothing and goes idle. -/
theorem C9_pending_fault_fires_once (cfg : AGVConfig) (st : AGVState) (tp : String)
    (st1 : AGVState) (t : ℚ) (f : String)
    (hsus : move_to_pre cfg st tp = MovePre.suspended st1 t)
    (hpend : st.pending_fault = some f) :
    st1.pending_fault = some f ∧
    st1.injected_faults = st.injected_faults ∧
    (move_to_finish cfg st1 tp t).1.pending_fault = none ∧
    (move_to_finish cfg st1 tp t).1.injected_faults = f :: st.injected_faults ∧
    (move_to_finish cfg st1 tp t).2.1 = true ∧
    (move_to_finish cfg st1 tp t).1.status = DeviceStatus.fault ∧
    (∀ target, st.status ≠ DeviceStatus.charging → st.battery_level < target →
      st.current_point = cfg.charging_point →
      (charge_battery cfg st target).1.pending_fault = none ∧
      (charge_battery cfg st target).1.injected_faults = f :: st.injected_faults ∧
      (charge_battery cfg st target).2.1 = true ∧
      (charge_battery cfg st target).1.status = DeviceStatus.fault) ∧
    (∀ st2, st2.pending_fault = none →
      (move_to_finish cfg st2 tp t).1.injected_faults = st2.injected_faults ∧
      (move_to_finish cfg st2 tp t).1.status = DeviceStatus.idle) := by
  obtain ⟨h1, -⟩ := move_to_pre_suspended_eq cfg st tp st1 t hsus
  subst h1
  have hfin := move_to_finish_pending cfg { st with
    action := true, target_point := some tp,
    status := DeviceStatus.moving, estimated_time := t } tp t f hpend
  refine ⟨hpend, rfl, hfin.1, hfin.2.1, hfin.2.2.1, hfin.2.2.2, ?_, ?_⟩
  · intro target hc1 hc2 hc3
    unfold charge_battery charge_battery_pre
    rw [if_neg hc1, if_neg (not_le.mpr hc2)]
    dsimp only
    rw [if_neg (by simp [hc3])]
    exact charge_battery_finish_pending cfg { st with status := DeviceStatus.charging }
      target _ f hpend
  · intro st2 hp2
    have h2 := move_to_finish_no_pending cfg st2 tp t hp2
    exact ⟨h2.2.1, h2.2.2.2⟩

/-- State for the C9 witness: stBase with a pending fault registered. -/
def stC9 : AGVState := { stBase with pending_fault := some "vehicle_fault" }

/-- The C9 witness state parked in its travel wait toward P1. -/
def stC9sus : AGVState := { stC9 with
  action := true, target_point := some "P1",
  status := DeviceStatus.moving, estimated_time := 10 }

/-- Witness for C9: the concrete pending-fault scenario, via the theorem. -/
theorem C9_witness :
    (move_to_finish cfgBase stC9sus "P1" 10).1.pending_fault = none ∧
    (move_to_finish cfgBase stC9sus "P1" 10).1.injected_faults = ["vehicle_fault"] ∧
    (move_to_finish cfgBase stC9sus "P1" 10).2.1 = true ∧
    (move_to_finish cfgBase stC9sus "P1" 10).1.status = DeviceStatus.fault := by
  have hsus : move_to_pre cfgBase stC9 "P1" = MovePre.suspended stC9sus 10 :=
    move_to_pre_feasible_eq cfgBase stC9 "P1" (by decide) (by decide)
      (by simp [cfgBase, stC9, stBase, gtt0] <;> norm_num) (by decide)
      (by simp [can_complete_task, optTruthy, pathPos, cfgBase, stC9, stBase, gtt0] <;>
        norm_num)
  have h := C9_pending_fault_fires_once cfgBase stC9 "P1" stC9sus 10 "vehicle_fault" hsus rfl
  exact ⟨h.2.2.1, h.2.2.2.1, h.2.2.2.2.1, h.2.2.2.2.2.1⟩

/-! ## C10 -/

/-- A movement to the charging point with no path from the current point
fails and changes nothing but the handle and the recorded target. -/
theorem move_to_charger_nopath_fields (cfg : AGVConfig) (s : AGVState)
    (hop : can_operate s = true)
    (hneg : cfg.get_travel_time s.current_point cfg.charging_point < 0) :
    (move_to_charger cfg s).1.battery_level = s.battery_level ∧
    (move_to_charger cfg s).1.current_point = s.current_point ∧
    (move_to_charger cfg s).1.position = s.position ∧
    (move_to_charger cfg s).1.now = s.now ∧
    (move_to_charger cfg s).1.pending_fault = s.pending_fault ∧
    (move_to_charger cfg s).1.injected_faults = s.injected_faults := by
  unfold move_to_charger
  cases hn : (cfg.path_points cfg.charging_point).isNone with
  | true =>
      rw [move_to_pre_unknown cfg s cfg.charging_point hop
        (Option.isNone_iff_eq_none.mp hn)]
      exact ⟨rfl, rfl, rfl, rfl, rfl, rfl⟩
  | false =>
      rw [move_to_pre_nopath cfg s cfg.charging_point hop hn hneg]
      exact ⟨rfl, rfl, rfl, rfl, rfl, rfl⟩

/-- C10: when charge_battery must first travel to the charger but the
nested move fails (here: no path from the current point to the charging
point), charging still proceeds at the current point: the call succeeds,
suspends for (target - level)/charging_speed, sets the level to the
target, and leaves the current point and position unchanged — a full
charge completes away from the charging point. -/
theorem C10_charge_completes_off_charger (cfg : AGVConfig) (st : AGVState) (target : ℚ)
    (hst : st.status = DeviceStatus.idle)
    (hb : st.battery_level < target)
    (hcp : st.current_point ≠ cfg.charging_point)
    (hnopath : cfg.get_travel_time st.current_point cfg.charging_point < 0) :
    (charge_battery cfg st target).2.1 = true ∧
    (charge_battery cfg st target).1.battery_level = target ∧
    (charge_battery cfg st target).1.current_point = st.current_point ∧
    (charge_battery cfg st target).1.position = st.position ∧
    (charge_battery cfg st target).1.now =
      st.now + (target - st.battery_level) / cfg.charging_speed := by
  have hop : can_operate st = true := by simp [can_operate, hst]
  have hm := move_to_charger_nopath_fields cfg st hop hnopath
  unfold charge_battery charge_battery_pre
  rw [if_neg (by simp [hst]), if_neg (not_le.mpr hb)]
  dsimp only
  rw [if_pos hcp]
  have hf := charge_battery_finish_battery cfg
    { (move_to_charger cfg st).1 with status := DeviceStatus.charging } target
    ((target - ((move_to_charger cfg st).1).battery_level) / cfg.charging_speed)
  refine ⟨hf.2.1, hf.1, ?_, ?_, ?_⟩
  · rw [hf.2.2.2.1]
    exact hm.2.1
  · rw [hf.2.2.2.2]
    exact hm.2.2.1
  · rw [hf.2.2.1]
    dsimp only
    rw [hm.1, hm.2.2.2.1]

/-- Configuration for the C10 witness: no path exists anywhere. -/
def cfgC10 : AGVConfig := { cfgBase with get_travel_time := fun _ _ => -1 }

/-- Witness for C10: a full charge to 80 % completing at P0, away from
the charger P10, via the theorem. -/
theorem C10_witness :
    (charge_battery cfgC10 stBase 80).2.1 = true ∧
    (charge_battery cfgC10 stBase 80).1.battery_level = 80 ∧
    (charge_battery cfgC10 stBase 80).1.current_point = stBase.current_point ∧
    (charge_battery cfgC10 stBase 80).1.position = stBase.position ∧
    (charge_battery cfgC10 stBase 80).1.now =
      stBase.now + (80 - stBase.battery_level) / cfgC10.charging_speed :=
  C10_charge_completes_off_charger cfgC10 stBase 80 (by decide)
    (by simp [stBase] <;> norm_num) (by decide)
    (by simp [cfgC10, cfgBase] <;> norm_num)
